import Mathlib

/-!
Shallow embedding of the EchoCheck server endpoints from src/server/index.js
(upload, check-file, generate-pdf, cleanup together with the multer upload
configuration and the error middleware), of the client-side generate gate
from the ActionButtons component, and of the EF consistency evaluator,
which is modelled from the specification because its Python source is not
part of the embedded tree.

External process runs (the spawned Python scripts) are summarised by the
data the close callbacks inspect: an exit code plus whether the run left
its output artifact on disk; the filesystem is the list of existing path
strings.
-/

namespace EchoCheck

/-! ## Paths and Node path primitives -/

/-- Filesystem paths as lists of segments from the root. -/
abbrev PathSegs := List String

/-- One step of Node path normalization: empty and dot segments are
dropped, a dot-dot segment removes the last accumulated segment, and any
other segment is appended. -/
def stepSeg (acc : PathSegs) (seg : String) : PathSegs :=
  if seg = "" ∨ seg = "." then acc
  else if seg = ".." then acc.dropLast
  else acc ++ [seg]

/-- Split a character list at every slash, keeping empty segments. -/
def splitOnSlash : List Char → List (List Char)
  | [] => [[]]
  | c :: cs =>
    let r := splitOnSlash cs
    if c = '/' then [] :: r
    else
      match r with
      | [] => [[c]]
      | s :: rest => (c :: s) :: rest

/-- Slash-separated segments of a string. -/
def splitSegs (s : String) : List String :=
  (splitOnSlash s.data).map String.mk

/-- Node path.join of a base directory with a caller-supplied name:
split the name on the separator and normalize segment by segment. -/
def resolveUnder (base : PathSegs) (filename : String) : PathSegs :=
  (splitSegs filename).foldl stepSeg base

/-- Render a segment path as the string stored in the filesystem model. -/
def pathStr (p : PathSegs) : String :=
  String.intercalate "/" p

/-- Uploads directory created at server start, path.join of the server
directory with the uploads segment. -/
def uploadsDirSegs : PathSegs := ["app", "server", "uploads"]

/-- Path string the server derives from a caller-supplied filename in the
check-file, generate-pdf and cleanup endpoints. -/
def joinUploads (filename : String) : String :=
  pathStr (resolveUnder uploadsDirSegs filename)

/-- Suffix of a character list starting at its last dot, when a dot
occurs at all. -/
def lastDotSuffix : List Char → Option (List Char)
  | [] => none
  | c :: cs =>
    match lastDotSuffix cs with
    | some e => some e
    | none => if c = '.' then some (c :: cs) else none

/-- Suffix of a character list following its last slash: the basename. -/
def afterLastSlash : List Char → List Char
  | [] => []
  | c :: cs =>
    if cs.contains '/' then afterLastSlash cs
    else if c = '/' then cs else c :: cs

/-- Node path.extname: the extension of the basename starting at its last
dot; a basename whose last dot is its first character has no extension. -/
def extname (s : String) : String :=
  let base := afterLastSlash s.data
  match lastDotSuffix base with
  | none => ""
  | some e => if e.length = base.length then "" else String.mk e

/-- JavaScript toLowerCase, character by character. -/
def lowerStr (s : String) : String :=
  String.mk (s.data.map Char.toLower)

/-- Replace the first occurrence of a pattern in a character list, as
JavaScript String.replace with a string pattern does. -/
def replaceFirstChars (pat rep : List Char) : List Char → List Char
  | [] => []
  | c :: cs =>
    if pat.isPrefixOf (c :: cs) then rep ++ (c :: cs).drop pat.length
    else c :: replaceFirstChars pat rep cs

/-- Replace the first occurrence of a pattern in a string. -/
def replaceFirst (s pat rep : String) : String :=
  String.mk (replaceFirstChars pat.data rep.data s.data)

/-! ## Responses -/

/-- JSON values appearing in response bodies. -/
inductive JVal where
  | jstr (s : String)
  | jbool (b : Bool)
  | jnum (n : Nat)
deriving DecidableEq

/-- JSON object bodies as key-value lists. -/
abbrev JBody := List (String × JVal)

/-- Responses the server returns: a JSON body with an HTTP status, or a
file download stream. -/
inductive Resp where
  | json (status : Nat) (body : JBody)
  | download (path : String)
deriving DecidableEq

/-- Value of a field of a JSON response body, none for downloads or for
absent fields. -/
def Resp.field (r : Resp) (k : String) : Option JVal :=
  match r with
  | .json _ body => (body.find? (fun kv => kv.fst == k)).map Prod.snd
  | .download _ => none

/-! ## Upload endpoint with the multer middleware -/

/-- Size limit from the multer configuration. -/
def uploadLimit : Nat := 10 * 1024 * 1024

/-- Upload file filter from the multer configuration: accept when the
declared MIME type is application/rtf or the lowercased extension of the
original name is .rtf. -/
def fileFilter (mimetype originalname : String) : Bool :=
  (mimetype == "application/rtf") || (lowerStr (extname originalname) == ".rtf")

/-- One upload request: declared MIME type, original client-side name,
byte size, and the unique stored name multer picks. -/
structure UploadReq where
  mimetype : String
  originalname : String
  size : Nat
  storedName : String
deriving DecidableEq

/-- Upload endpoint behind multer: the file filter is consulted when the
file arrives, and a filter rejection is a plain error the error middleware
maps to a generic 500; a file exceeding the size limit raises the
LIMIT_FILE_SIZE multer error the middleware maps to 400 File too large;
otherwise the file is stored under the uploads directory and the handler
answers with success metadata. -/
def uploadHandler (fs : List String) (r : UploadReq) : Resp × List String :=
  if fileFilter r.mimetype r.originalname = false then
    (.json 500 [("error", .jstr "Internal server error")], fs)
  else if uploadLimit < r.size then
    (.json 400 [("error", .jstr "File too large")], fs)
  else
    (.json 200 [("success", .jbool true),
                ("message", .jstr "File uploaded successfully"),
                ("filename", .jstr r.storedName),
                ("size", .jnum r.size)],
     fs ++ [joinUploads r.storedName])

/-! ## check-file endpoint -/

/-- Observable outcome of one spawned Python process: its exit code and
the stdout and stderr text collected by the data callbacks. -/
structure PyRun where
  exitCode : Int
  stdout : String
  stderr : String
deriving DecidableEq

/-- Close callback of the spawned EF checker in the check-file endpoint:
a non-zero exit answers 500 with the stderr text as details; otherwise
the parsed stdout JSON is passed through, and a parse failure answers 500
with the stdout text as details. -/
def checkFileOnClose (run : PyRun) (parsed : Option JBody) : Resp :=
  if run.exitCode ≠ 0 then
    .json 500 [("error", .jstr "EF check failed"),
               ("details", .jstr run.stderr)]
  else
    match parsed with
    | some result => .json 200 result
    | none =>
      .json 500 [("error", .jstr "Failed to parse EF check results"),
                 ("details", .jstr run.stdout)]

/-- Outcome of the check-file endpoint: the response and whether the
Python checker process was spawned at all. -/
structure CheckOutcome where
  resp : Resp
  spawned : Bool
deriving DecidableEq

/-- check-file endpoint: requires a filename in the body, requires the
joined path to exist, then spawns the Python EF checker and answers from
its close callback. -/
def checkFileHandler (fs : List String) (filename : Option String)
    (run : PyRun) (parsed : Option JBody) : CheckOutcome :=
  match filename with
  | none => ⟨.json 400 [("error", .jstr "Filename is required")], false⟩
  | some f =>
    if joinUploads f ∉ fs then
      ⟨.json 404 [("error", .jstr "File not found")], false⟩
    else
      ⟨checkFileOnClose run parsed, true⟩

/-! ## generate-pdf endpoint -/

/-- The two external scripts the generate-pdf endpoint can spawn, in the
order the nested close callbacks run them. -/
inductive SpawnedTask where
  | convertRtfToDocx
  | generatePdfScript
deriving DecidableEq

/-- Observable outcome of one conversion stage process: its exit code and
whether the run left its output artifact on disk. -/
structure StageRun where
  exitCode : Int
  produced : Bool
deriving DecidableEq

/-- Outcome of the generate-pdf endpoint: the response, the resulting
filesystem, and which external tasks were spawned, in order. -/
structure GenOutcome where
  resp : Resp
  fs : List String
  spawned : List SpawnedTask
deriving DecidableEq

/-- Add a path to the filesystem when absent. -/
def insertPath (p : String) (fs : List String) : List String :=
  if p ∈ fs then fs else fs ++ [p]

/-- Remove a path from the filesystem. -/
def removePath (p : String) (fs : List String) : List String :=
  fs.filter (fun q => q != p)

/-- Nested close callbacks of the generate-pdf endpoint, entered after
the source file exists: spawn the RTF-to-DOCX conversion; on non-zero
exit answer 500 with a fixed message; otherwise spawn the PDF generation;
on non-zero exit answer 500 with a fixed message; otherwise, when the PDF
exists, stream it for download and remove the DOCX and the PDF afterwards,
and when it does not exist answer 500. -/
def generateStages (rtfPath : String) (fs : List String)
    (convRun pdfRun : StageRun) : GenOutcome :=
  let docxPath := replaceFirst rtfPath ".rtf" ".docx"
  let fs1 := if convRun.produced then insertPath docxPath fs else fs
  if convRun.exitCode ≠ 0 then
    ⟨.json 500 [("error", .jstr "RTF to DOCX conversion failed")], fs1,
     [.convertRtfToDocx]⟩
  else
    let pdfPath := replaceFirst docxPath ".docx" ".pdf"
    let fs2 := if pdfRun.produced then insertPath pdfPath fs1 else fs1
    if pdfRun.exitCode ≠ 0 then
      ⟨.json 500 [("error", .jstr "PDF generation failed")], fs2,
       [.convertRtfToDocx, .generatePdfScript]⟩
    else if pdfPath ∈ fs2 then
      ⟨.download pdfPath, removePath pdfPath (removePath docxPath fs2),
       [.convertRtfToDocx, .generatePdfScript]⟩
    else
      ⟨.json 500 [("error", .jstr "PDF file was not created")], fs2,
       [.convertRtfToDocx, .generatePdfScript]⟩

/-- generate-pdf endpoint: requires a filename in the body, requires the
joined path to exist, then runs the conversion stages. The request body
carries only the filename; no consistency status is received or read. -/
def generatePdfHandler (fs : List String) (filename : Option String)
    (convRun pdfRun : StageRun) : GenOutcome :=
  match filename with
  | none => ⟨.json 400 [("error", .jstr "Filename is required")], fs, []⟩
  | some f =>
    if joinUploads f ∉ fs then
      ⟨.json 404 [("error", .jstr "File not found")], fs, []⟩
    else
      generateStages (joinUploads f) fs convRun pdfRun

/-! ## cleanup endpoint -/

/-- cleanup endpoint: requires a filename in the body; when the joined
path exists it is removed and the handler answers success true, otherwise
it answers 404 File not found. -/
def cleanupHandler (fs : List String) (filename : Option String) :
    Resp × List String :=
  match filename with
  | none => (.json 400 [("error", .jstr "Filename is required")], fs)
  | some f =>
    if joinUploads f ∈ fs then
      (.json 200 [("success", .jbool true),
                  ("message", .jstr "File cleaned up successfully")],
       removePath (joinUploads f) fs)
    else
      (.json 404 [("error", .jstr "File not found")], fs)

/-! ## Client-side generate gate -/

/-- Check results as the client holds them: the status string of the last
consistency check. -/
structure CheckResults where
  status : String
deriving DecidableEq

/-- What the client generate handler does: raise an alert without any
request, or post the generate-pdf request for the file. -/
inductive ClientAction where
  | alertOnly (msg : String)
  | postGeneratePdf (filename : String)
deriving DecidableEq

/-- handleGeneratePdf from the client ActionButtons component: when the
check status is not good it raises an alert and issues no request,
otherwise it posts the generate-pdf request for the file. -/
def handleGeneratePdf (results : CheckResults) (filename : String) :
    ClientAction :=
  if results.status ≠ "good" then
    .alertOnly "PDF generation is only available when EF values are consistent."
  else
    .postGeneratePdf filename

/-! ## Consistency evaluator, modelled from the spec -/

/-- Modelled from the spec: the three canonical report locations of an EF
value; the extractor python/ef_checker.py is not part of the embedded
tree. -/
inductive Location where
  | conclusion
  | body
  | calculationsTable
deriving DecidableEq

/-- Human-readable name of a location, used in diagnostic messages. -/
def Location.describe : Location → String
  | .conclusion => "Conclusion"
  | .body => "Body"
  | .calculationsTable => "Calculations table"

/-- Modelled from the spec: one extracted EF candidate, either an explicit
Missing marker or a normalized integer percentage. -/
inductive EfValue where
  | missing
  | value (n : Int)
deriving DecidableEq

/-- Modelled from the spec: the three extracted EF values, one per
canonical location. -/
structure EfTriple where
  conclusion : EfValue
  body : EfValue
  calcs : EfValue
deriving DecidableEq

/-- Consistency statuses of a report. -/
inductive ConsStatus where
  | good
  | discordant
  | incomplete
  | error
deriving DecidableEq

/-- Outcome of evaluating exactly three extracted values: a status and a
free-text diagnostic message. -/
structure ConsistencyResult where
  status : ConsStatus
  message : String
deriving DecidableEq

/-- Locations of an EF triple marked Missing, in canonical order. -/
def missingLocations (t : EfTriple) : List Location :=
  (if t.conclusion = .missing then [Location.conclusion] else []) ++
  (if t.body = .missing then [Location.body] else []) ++
  (if t.calcs = .missing then [Location.calculationsTable] else [])

/-- Modelled from the spec: python/ef_checker.py is not in the embedded
tree, so the consistency evaluator follows the rules of the specification
in their stated priority order: any Missing location gives Incomplete with
a message naming the missing locations; three present and exactly equal
values give Good; three present values not all equal give Discordant with
a message listing each value. -/
def checkConsistency (t : EfTriple) : ConsistencyResult :=
  match t.conclusion, t.body, t.calcs with
  | .value a, .value b, .value c =>
    if a = b ∧ b = c then
      ⟨.good, "All EF values are consistent"⟩
    else
      ⟨.discordant,
       "EF values differ: conclusion " ++ toString a ++ "%, body " ++
         toString b ++ "%, calculations table " ++ toString c ++ "%"⟩
  | _, _, _ =>
    ⟨.incomplete,
     "EF value missing in: " ++
       String.intercalate ", " ((missingLocations t).map Location.describe)⟩

/-- Some location of the triple is marked Missing. -/
def hasMissing (t : EfTriple) : Prop :=
  t.conclusion = .missing ∨ t.body = .missing ∨ t.calcs = .missing

instance (t : EfTriple) : Decidable (hasMissing t) := by
  unfold hasMissing; infer_instance

/-- All three locations carry the same numeric value. -/
def allEqualValues (t : EfTriple) : Prop :=
  ∃ n : Int, t.conclusion = .value n ∧ t.body = .value n ∧ t.calcs = .value n


/-! ## Helper lemmas -/

theorem mem_insertPath_self (p : String) (fs : List String) :
    p ∈ insertPath p fs := by
  unfold insertPath
  split
  · assumption
  · simp

theorem mem_insertPath_of_mem (p q : String) (fs : List String)
    (h : q ∈ fs) : q ∈ insertPath p fs := by
  unfold insertPath
  split
  · exact h
  · simp [h]

theorem not_mem_removePath_self (p : String) (fs : List String) :
    p ∉ removePath p fs := by
  unfold removePath
  intro h
  simp [List.mem_filter] at h

theorem lastDotSuffix_suffix :
    ∀ (cs e : List Char), lastDotSuffix cs = some e → e <:+ cs := by
  intro cs
  induction cs with
  | nil => intro e h; simp [lastDotSuffix] at h
  | cons c cs ih =>
    intro e h
    simp only [lastDotSuffix] at h
    cases hrec : lastDotSuffix cs with
    | some e2 =>
      simp only [hrec, Option.some.injEq] at h
      subst h
      exact (ih e2 hrec).trans (List.suffix_cons c cs)
    | none =>
      simp only [hrec] at h
      by_cases hc : c = '.'
      · simp only [if_pos hc, Option.some.injEq] at h
        subst h
        exact List.suffix_refl _
      · simp [if_neg hc] at h

theorem afterLastSlash_suffix (cs : List Char) : afterLastSlash cs <:+ cs := by
  induction cs with
  | nil => simp [afterLastSlash]
  | cons c cs ih =>
    simp only [afterLastSlash]
    split
    · exact ih.trans (List.suffix_cons c cs)
    · split
      · exact List.suffix_cons c cs
      · exact List.suffix_refl _

theorem extname_suffix_lower (name : String)
    (h : lowerStr (extname name) = ".rtf") :
    (".rtf").data <:+ (lowerStr name).data := by
  simp only [extname] at h
  cases hdot : lastDotSuffix (afterLastSlash name.data) with
  | none =>
    simp only [hdot] at h
    exact absurd h (by decide)
  | some e =>
    simp only [hdot] at h
    by_cases hlen : e.length = (afterLastSlash name.data).length
    · rw [if_pos hlen] at h
      exact absurd h (by decide)
    · rw [if_neg hlen] at h
      have hdata : e.map Char.toLower = (".rtf").data := congrArg String.data h
      have hsuf : e <:+ name.data :=
        (lastDotSuffix_suffix _ e hdot).trans (afterLastSlash_suffix name.data)
      have hmap := hsuf.map Char.toLower
      rw [hdata] at hmap
      exact hmap

theorem foldl_stepSeg_keeps_base :
    ∀ (segs : List String) (base : PathSegs),
      (∀ s ∈ segs, s ≠ "..") → base <+: segs.foldl stepSeg base := by
  intro segs
  induction segs with
  | nil => intro base _; exact List.prefix_refl base
  | cons s segs ih =>
    intro base hs
    have hne : s ≠ ".." := hs s (List.mem_cons_self s segs)
    have hstep : base <+: stepSeg base s := by
      by_cases h1 : s = "" ∨ s = "."
      · simp only [stepSeg, if_pos h1]
        exact List.prefix_refl base
      · simp only [stepSeg, if_neg h1, if_neg hne]
        exact List.prefix_append base [s]
    exact hstep.trans (ih (stepSeg base s) (fun x hx => hs x (List.mem_cons_of_mem s hx)))

theorem generateStages_spawned (rtfPath : String) (fs : List String)
    (convRun pdfRun : StageRun) :
    (generateStages rtfPath fs convRun pdfRun).spawned
      = if convRun.exitCode ≠ 0 then [SpawnedTask.convertRtfToDocx]
        else [SpawnedTask.convertRtfToDocx, SpawnedTask.generatePdfScript] := by
  by_cases hc : convRun.exitCode ≠ 0
  · simp [generateStages, hc]
  · simp only [generateStages, hc, if_false]
    repeat' split
    all_goals rfl

theorem checkConsistency_missing (t : EfTriple) (h : hasMissing t) :
    (checkConsistency t).status = ConsStatus.incomplete := by
  obtain ⟨c, b, k⟩ := t
  cases c <;> cases b <;> cases k <;> simp_all [checkConsistency, hasMissing]

theorem checkConsistency_good (t : EfTriple) (h : allEqualValues t) :
    (checkConsistency t).status = ConsStatus.good := by
  obtain ⟨n, h1, h2, h3⟩ := h
  obtain ⟨c, b, k⟩ := t
  simp only at h1 h2 h3
  subst h1; subst h2; subst h3
  simp [checkConsistency]

theorem checkConsistency_discordant (t : EfTriple) (hm : ¬ hasMissing t)
    (he : ¬ allEqualValues t) :
    (checkConsistency t).status = ConsStatus.discordant := by
  obtain ⟨c, b, k⟩ := t
  simp only [hasMissing] at hm
  cases c with
  | missing => exact absurd (Or.inl rfl) hm
  | value a =>
    cases b with
    | missing => exact absurd (Or.inr (Or.inl rfl)) hm
    | value b2 =>
      cases k with
      | missing => exact absurd (Or.inr (Or.inr rfl)) hm
      | value c2 =>
        by_cases hab : a = b2 ∧ b2 = c2
        · exact absurd ⟨a, rfl, by rw [hab.1], by rw [hab.1, hab.2]⟩ he
        · simp [checkConsistency, hab]


/-! ## Claim theorems -/

/-- C1 counterexample: the server generate-pdf endpoint performs no
consistency-status check. With the recorded check status discordant (a
status the server never receives or reads), a direct generate request for
an existing file still spawns the external conversion task, against the
claim that no conversion task is ever invoked when status is not Good. -/
theorem generate_no_server_status_gate :
    (⟨"discordant"⟩ : CheckResults).status ≠ "good" ∧
    (generatePdfHandler [joinUploads "report-1.rtf"] (some "report-1.rtf")
        ⟨1, false⟩ ⟨1, false⟩).spawned = [SpawnedTask.convertRtfToDocx] := by
  decide

/-- C1 amended: the status gate for generation exists only in the client.
When the check status is not good, the client generate handler raises an
alert and issues no request, so no conversion task is spawned through the
UI; the server endpoint itself performs no status check. -/
theorem client_generate_gate_rejects (results : CheckResults)
    (filename : String) (h : results.status ≠ "good") :
    handleGeneratePdf results filename =
      ClientAction.alertOnly
        "PDF generation is only available when EF values are consistent." := by
  simp [handleGeneratePdf, h]

/-- C1 witness: the client gate fires on a concrete discordant status. -/
theorem client_generate_gate_rejects_spot :
    handleGeneratePdf ⟨"discordant"⟩ "report-1.rtf" =
      ClientAction.alertOnly
        "PDF generation is only available when EF values are consistent." :=
  client_generate_gate_rejects ⟨"discordant"⟩ "report-1.rtf" (by decide)

/-- C2 counterexample: a stage-2 failure does not clean up. With the RTF
present, stage 1 succeeding and producing the DOCX, and stage 2 exiting
non-zero, the endpoint surfaces the failure while the DOCX intermediate
artifact is still on disk, against the claim that every run artifact is
deleted before the failure is surfaced. -/
theorem stage2_failure_leaves_artifact :
    (generatePdfHandler [joinUploads "report-1.rtf"] (some "report-1.rtf")
        ⟨0, true⟩ ⟨1, false⟩).resp
      = Resp.json 500 [("error", JVal.jstr "PDF generation failed")] ∧
    "app/server/uploads/report-1.docx" ∈
      (generatePdfHandler [joinUploads "report-1.rtf"] (some "report-1.rtf")
        ⟨0, true⟩ ⟨1, false⟩).fs := by
  decide

/-- C2 amended: on a conversion-stage failure the endpoint surfaces the
error without deleting anything; in particular after a successful stage 1
and a failing stage 2 the DOCX intermediate remains on disk. Intermediate
artifacts are removed only on the successful download path. -/
theorem stage_failure_no_cleanup (fs : List String) (f : String)
    (convRun pdfRun : StageRun) (hmem : joinUploads f ∈ fs)
    (hc : convRun.exitCode = 0) (hcp : convRun.produced = true)
    (hp : pdfRun.exitCode ≠ 0) :
    (generatePdfHandler fs (some f) convRun pdfRun).resp
      = Resp.json 500 [("error", JVal.jstr "PDF generation failed")] ∧
    replaceFirst (joinUploads f) ".rtf" ".docx" ∈
      (generatePdfHandler fs (some f) convRun pdfRun).fs := by
  have hgen : generatePdfHandler fs (some f) convRun pdfRun
      = generateStages (joinUploads f) fs convRun pdfRun := by
    simp [generatePdfHandler, hmem]
  rw [hgen]
  simp only [generateStages, hc, ne_eq, not_true_eq_false, if_false, hcp,
    if_true, hp, not_false_eq_true]
  refine ⟨trivial, ?_⟩
  cases hq : pdfRun.produced with
  | false =>
    simp only [hq, Bool.false_eq_true, if_false]
    exact mem_insertPath_self _ _
  | true =>
    simp only [hq, if_true]
    exact mem_insertPath_of_mem _ _ _ (mem_insertPath_self _ _)

/-- C2 witness: the amended statement at a concrete stage-2 failure. -/
theorem stage_failure_no_cleanup_spot :
    (generatePdfHandler [joinUploads "report-1.rtf"] (some "report-1.rtf")
        ⟨0, true⟩ ⟨2, true⟩).resp
      = Resp.json 500 [("error", JVal.jstr "PDF generation failed")] ∧
    replaceFirst (joinUploads "report-1.rtf") ".rtf" ".docx" ∈
      (generatePdfHandler [joinUploads "report-1.rtf"] (some "report-1.rtf")
        ⟨0, true⟩ ⟨2, true⟩).fs :=
  stage_failure_no_cleanup [joinUploads "report-1.rtf"] "report-1.rtf"
    ⟨0, true⟩ ⟨2, true⟩ (by decide) rfl rfl (by decide)

/-- C3: classification of a triple of extracted EF values. Any Missing
location makes the status Incomplete regardless of the other two values;
with no Missing location, three exactly equal values give Good and any
difference gives Discordant. The evaluator is modelled from the spec
because its Python source is not in the embedded tree. -/
theorem consistency_classification (t : EfTriple) :
    (hasMissing t → (checkConsistency t).status = ConsStatus.incomplete) ∧
    (¬ hasMissing t → allEqualValues t →
      (checkConsistency t).status = ConsStatus.good) ∧
    (¬ hasMissing t → ¬ allEqualValues t →
      (checkConsistency t).status = ConsStatus.discordant) :=
  ⟨fun h => checkConsistency_missing t h,
   fun _ h => checkConsistency_good t h,
   fun hm he => checkConsistency_discordant t hm he⟩

/-- C3 witness: the three classification rules at concrete triples. -/
theorem consistency_classification_spot :
    (checkConsistency ⟨EfValue.missing, EfValue.value 55,
        EfValue.value 60⟩).status = ConsStatus.incomplete ∧
    (checkConsistency ⟨EfValue.value 55, EfValue.value 55,
        EfValue.value 55⟩).status = ConsStatus.good ∧
    (checkConsistency ⟨EfValue.value 55, EfValue.value 55,
        EfValue.value 60⟩).status = ConsStatus.discordant :=
  ⟨(consistency_classification _).1 (Or.inl rfl),
   (consistency_classification _).2.1 (by decide) ⟨55, rfl, rfl, rfl⟩,
   (consistency_classification _).2.2 (by decide)
     (fun ⟨n, h1, _, h3⟩ => by
       simp only [EfValue.value.injEq] at h1 h3; omega)⟩

/-- C4: the conversion stages run strictly sequentially. The PDF
rendering script is spawned only when the RTF-to-DOCX conversion has
reported a zero exit status, and then the spawn order is the conversion
first and the rendering second. -/
theorem pdf_stage_needs_convert_success (fs : List String)
    (filename : Option String) (convRun pdfRun : StageRun)
    (h : SpawnedTask.generatePdfScript ∈
      (generatePdfHandler fs filename convRun pdfRun).spawned) :
    convRun.exitCode = 0 ∧
    (generatePdfHandler fs filename convRun pdfRun).spawned
      = [SpawnedTask.convertRtfToDocx, SpawnedTask.generatePdfScript] := by
  cases filename with
  | none => simp [generatePdfHandler] at h
  | some f =>
    by_cases hmem : joinUploads f ∉ fs
    · simp [generatePdfHandler, hmem] at h
    · have hgen : generatePdfHandler fs (some f) convRun pdfRun
          = generateStages (joinUploads f) fs convRun pdfRun := by
        simp [generatePdfHandler, hmem]
      rw [hgen] at h ⊢
      rw [generateStages_spawned] at h ⊢
      by_cases hc : convRun.exitCode ≠ 0
      · rw [if_pos hc] at h
        simp at h
      · have hc0 : convRun.exitCode = 0 := by omega
        rw [if_neg hc]
        exact ⟨hc0, rfl⟩

/-- C4 witness: with both stages succeeding on an existing file, both
tasks are spawned in order and the theorem applies. -/
theorem pdf_stage_needs_convert_success_spot :
    (⟨0, true⟩ : StageRun).exitCode = 0 ∧
    (generatePdfHandler [joinUploads "report-1.rtf"] (some "report-1.rtf")
        ⟨0, true⟩ ⟨0, true⟩).spawned
      = [SpawnedTask.convertRtfToDocx, SpawnedTask.generatePdfScript] :=
  pdf_stage_needs_convert_success [joinUploads "report-1.rtf"]
    (some "report-1.rtf") ⟨0, true⟩ ⟨0, true⟩ (by decide)


/-- C5 counterexample: a stage-1 failure response does not have the
stage-and-reason shape. The body is a single fixed error message with no
stage field and no reason field, against the claim that the failure
identifies the stage by name with its diagnostic output. -/
theorem stage1_failure_response_shape :
    (generatePdfHandler [joinUploads "report-1.rtf"] (some "report-1.rtf")
        ⟨1, false⟩ ⟨0, false⟩).resp
      = Resp.json 500 [("error", JVal.jstr "RTF to DOCX conversion failed")] ∧
    Resp.field ((generatePdfHandler [joinUploads "report-1.rtf"]
        (some "report-1.rtf") ⟨1, false⟩ ⟨0, false⟩).resp) "stage" = none ∧
    Resp.field ((generatePdfHandler [joinUploads "report-1.rtf"]
        (some "report-1.rtf") ⟨1, false⟩ ⟨0, false⟩).resp) "reason" = none := by
  decide

/-- C5 amended: a stage-1 failure on an existing file returns a 500 JSON
body whose only field is the fixed message RTF to DOCX conversion failed,
naming the failing conversion implicitly but carrying neither a stage
field nor the diagnostic output of the tool. -/
theorem stage1_failure_fixed_error (fs : List String) (f : String)
    (convRun pdfRun : StageRun) (hmem : joinUploads f ∈ fs)
    (hc : convRun.exitCode ≠ 0) :
    (generatePdfHandler fs (some f) convRun pdfRun).resp
      = Resp.json 500 [("error", JVal.jstr "RTF to DOCX conversion failed")] := by
  simp [generatePdfHandler, hmem, generateStages, hc]

/-- C5 witness: the amended statement at a concrete stage-1 failure. -/
theorem stage1_failure_fixed_error_spot :
    (generatePdfHandler [joinUploads "report-1.rtf"] (some "report-1.rtf")
        ⟨3, false⟩ ⟨0, false⟩).resp
      = Resp.json 500 [("error", JVal.jstr "RTF to DOCX conversion failed")] :=
  stage1_failure_fixed_error [joinUploads "report-1.rtf"] "report-1.rtf"
    ⟨3, false⟩ ⟨0, false⟩ (by decide) (by decide)

/-- C6 counterexample: a caller-supplied filename with dot-dot segments
resolves outside the uploads namespace, and cleanup deletes the outside
file: with the filename dot-dot slash dot-dot slash secret.txt, the
resolved path lies outside the uploads directory and a cleanup request
removes it from disk, against the claim that no request can delete a file
outside the per-report uploads namespace. -/
theorem cleanup_escapes_uploads :
    ¬ (uploadsDirSegs <+: resolveUnder uploadsDirSegs "../../secret.txt") ∧
    (cleanupHandler [joinUploads "../../secret.txt"]
        (some "../../secret.txt")).1
      = Resp.json 200 [("success", JVal.jbool true),
                       ("message", JVal.jstr "File cleaned up successfully")] ∧
    (cleanupHandler [joinUploads "../../secret.txt"]
        (some "../../secret.txt")).2 = [] := by
  decide

/-- C6 amended: for caller-supplied filenames without dot-dot segments,
every path the endpoints derive stays inside the base directory it is
joined with: the base is a path-prefix of the resolved path. Filenames
with dot-dot segments can escape the uploads namespace. -/
theorem resolve_stays_under_base (base : PathSegs) (filename : String)
    (h : ∀ s ∈ splitSegs filename, s ≠ "..") :
    base <+: resolveUnder base filename :=
  foldl_stepSeg_keeps_base (splitSegs filename) base h

/-- C6 witness: a plain report filename resolves under the uploads
directory. -/
theorem resolve_stays_under_base_spot :
    uploadsDirSegs <+: resolveUnder uploadsDirSegs "report-1.rtf" :=
  resolve_stays_under_base uploadsDirSegs "report-1.rtf" (by decide)

/-- C7 counterexample: cleanup is not idempotent. The first cleanup of an
existing file answers success true, and the second cleanup of the same
name answers a 404 File not found error rather than the same non-error
response, against the claim that cleaning an already-cleaned report is
not an error. -/
theorem cleanup_not_idempotent :
    (cleanupHandler [joinUploads "report-1.rtf"] (some "report-1.rtf")).1
      = Resp.json 200 [("success", JVal.jbool true),
                       ("message", JVal.jstr "File cleaned up successfully")] ∧
    (cleanupHandler (cleanupHandler [joinUploads "report-1.rtf"]
        (some "report-1.rtf")).2 (some "report-1.rtf")).1
      = Resp.json 404 [("error", JVal.jstr "File not found")] ∧
    (cleanupHandler (cleanupHandler [joinUploads "report-1.rtf"]
        (some "report-1.rtf")).2 (some "report-1.rtf")).1
      ≠ (cleanupHandler [joinUploads "report-1.rtf"] (some "report-1.rtf")).1 := by
  decide

/-- C7 amended: a cleanup of an existing file answers success true and
removes it; a second cleanup of the same name then answers the 404 File
not found error, so only the first cleanup succeeds. -/
theorem cleanup_second_call_not_found (fs : List String) (f : String)
    (hmem : joinUploads f ∈ fs) :
    (cleanupHandler fs (some f)).1
      = Resp.json 200 [("success", JVal.jbool true),
                       ("message", JVal.jstr "File cleaned up successfully")] ∧
    (cleanupHandler (cleanupHandler fs (some f)).2 (some f)).1
      = Resp.json 404 [("error", JVal.jstr "File not found")] := by
  have h2 : joinUploads f ∉ removePath (joinUploads f) fs :=
    not_mem_removePath_self _ _
  constructor
  · simp [cleanupHandler, hmem]
  · simp [cleanupHandler, hmem, h2]

/-- C7 witness: the amended statement at a concrete filename. -/
theorem cleanup_second_call_not_found_spot :
    (cleanupHandler [joinUploads "report-1.rtf"] (some "report-1.rtf")).1
      = Resp.json 200 [("success", JVal.jbool true),
                       ("message", JVal.jstr "File cleaned up successfully")] ∧
    (cleanupHandler (cleanupHandler [joinUploads "report-1.rtf"]
        (some "report-1.rtf")).2 (some "report-1.rtf")).1
      = Resp.json 404 [("error", JVal.jstr "File not found")] :=
  cleanup_second_call_not_found [joinUploads "report-1.rtf"] "report-1.rtf"
    (by decide)

/-- C8 counterexample: the upload filter accepts a file whose extension
is not rtf when its declared MIME type is application/rtf, and the file
is stored, so an extraction can later run on it, against the claim that
every artifact with a non-rtf extension is rejected before extraction. -/
theorem mimetype_bypasses_extension :
    lowerStr (extname "report.doc") ≠ ".rtf" ∧
    fileFilter "application/rtf" "report.doc" = true ∧
    (uploadHandler [] ⟨"application/rtf", "report.doc", 1024,
        "rtfFile-1.doc"⟩).2 ≠ [] := by
  decide

/-- C8 amended: an upload is rejected before any extraction unless the
declared MIME type is application/rtf or the lowercased name carries the
rtf extension: when the MIME type differs and the lowercased name does
not even end in dot rtf, the filter rejects the file, the filesystem is
unchanged by the upload, and the check endpoint spawns no extractor for a
name with no stored file. -/
theorem upload_reject_nonrtf (mt name : String) (fs : List String)
    (hmt : mt ≠ "application/rtf")
    (hsuf : ¬ ((".rtf").data <:+ (lowerStr name).data)) :
    fileFilter mt name = false ∧
    (∀ sz stored, (uploadHandler fs ⟨mt, name, sz, stored⟩).2 = fs) ∧
    (∀ f run parsed, joinUploads f ∉ fs →
      (checkFileHandler fs (some f) run parsed).spawned = false) := by
  have hff : fileFilter mt name = false := by
    simp only [fileFilter, Bool.or_eq_false_iff, beq_eq_false_iff_ne, ne_eq]
    refine ⟨hmt, ?_⟩
    intro heq
    exact hsuf (extname_suffix_lower name heq)
  refine ⟨hff, ?_, ?_⟩
  · intro sz stored
    simp [uploadHandler, hff]
  · intro f run parsed hnm
    simp [checkFileHandler, hnm]

/-- C8 witness: the amended statement at a concrete plain-text upload. -/
theorem upload_reject_nonrtf_spot :
    fileFilter "text/plain" "notes.txt" = false ∧
    (uploadHandler [] ⟨"text/plain", "notes.txt", 1024, "rtfFile-2.txt"⟩).2
      = [] :=
  ⟨(upload_reject_nonrtf "text/plain" "notes.txt" [] (by decide) (by decide)).1,
   (upload_reject_nonrtf "text/plain" "notes.txt" [] (by decide)
      (by decide)).2.1 1024 "rtfFile-2.txt"⟩

/-- C9 counterexample: the diagnostic text in check-file error responses
is not bounded by any fixed maximum size: for every candidate bound there
is a failing run whose stderr is returned as a details field longer than
the bound, against the claim that diagnostics are truncated to a fixed
maximum size before being returned. -/
theorem details_unbounded :
    ¬ ∃ B : Nat, ∀ (run : PyRun) (parsed : Option JBody) (d : String),
        Resp.field (checkFileOnClose run parsed) "details"
            = some (JVal.jstr d) →
        d.length ≤ B := by
  rintro ⟨B, h⟩
  have hb := h ⟨1, "", String.mk (List.replicate (B + 1) 'a')⟩ none
      (String.mk (List.replicate (B + 1) 'a')) rfl
  have hlen : (String.mk (List.replicate (B + 1) 'a')).length = B + 1 := by
    show (List.replicate (B + 1) 'a').length = B + 1
    simp
  omega

/-- C9 amended: the check-file error responses return the raw diagnostic
output of the external task verbatim and unbounded: the details field is
the full stderr text on a non-zero exit, and the full stdout text on a
parse failure. -/
theorem details_verbatim (run : PyRun) (parsed : Option JBody) :
    (run.exitCode ≠ 0 →
      Resp.field (checkFileOnClose run parsed) "details"
        = some (JVal.jstr run.stderr)) ∧
    (run.exitCode = 0 → parsed = none →
      Resp.field (checkFileOnClose run parsed) "details"
        = some (JVal.jstr run.stdout)) := by
  constructor
  · intro h
    simp [checkFileOnClose, h, Resp.field]
  · intro h hp
    simp [checkFileOnClose, h, hp, Resp.field]

/-- C9 witness: a concrete failing run returns its stderr verbatim. -/
theorem details_verbatim_spot :
    Resp.field (checkFileOnClose ⟨1, "", "boom"⟩ none) "details"
      = some (JVal.jstr "boom") :=
  (details_verbatim ⟨1, "", "boom"⟩ none).1 (by decide)

/-- C10 counterexample: an oversized upload is not always answered with
the 400 File too large error. multer consults the file filter when the
file arrives, before the size limit can fire on the content stream, so an
oversized upload that fails the RTF type filter is rejected by the plain
filter error, which the error middleware maps to 500 Internal server
error rather than 400 File too large; the file is still never stored. -/
theorem oversized_nonrtf_not_file_too_large :
    10 * 1024 * 1024 < 20971520 ∧
    (uploadHandler [] ⟨"text/plain", "big.txt", 20971520,
        "rtfFile-3.txt"⟩).1
      = Resp.json 500 [("error", JVal.jstr "Internal server error")] ∧
    (uploadHandler [] ⟨"text/plain", "big.txt", 20971520,
        "rtfFile-3.txt"⟩).1
      ≠ Resp.json 400 [("error", JVal.jstr "File too large")] ∧
    (uploadHandler [] ⟨"text/plain", "big.txt", 20971520,
        "rtfFile-3.txt"⟩).2 = [] := by
  decide

/-- C10 amended: an upload larger than 10 MiB is always rejected and
never stored: the filesystem is unchanged and the response is never the
success response. The rejection message depends on the type filter, which
multer consults first: an oversized upload accepted by the RTF type
filter is answered with the 400 File too large error the error middleware
produces from the multer size-limit error, and an oversized upload
rejected by the type filter is answered with the filter error, mapped to
500 Internal server error. -/
theorem upload_size_limit_enforced (fs : List String) (r : UploadReq)
    (hsz : 10 * 1024 * 1024 < r.size) :
    (uploadHandler fs r).2 = fs ∧
    (∀ body, (uploadHandler fs r).1 ≠ Resp.json 200 body) ∧
    (fileFilter r.mimetype r.originalname = true →
      (uploadHandler fs r).1
        = Resp.json 400 [("error", JVal.jstr "File too large")]) ∧
    (fileFilter r.mimetype r.originalname = false →
      (uploadHandler fs r).1
        = Resp.json 500 [("error", JVal.jstr "Internal server error")]) := by
  by_cases hf : fileFilter r.mimetype r.originalname = false
  · refine ⟨?_, ?_, ?_, ?_⟩
    · simp [uploadHandler, hf]
    · intro body
      simp [uploadHandler, hf]
    · intro htr
      rw [htr] at hf
      exact absurd hf (by simp)
    · intro _
      simp [uploadHandler, hf]
  · have hf' : fileFilter r.mimetype r.originalname = true := by
      cases hq : fileFilter r.mimetype r.originalname
      · exact absurd hq hf
      · rfl
    have hlim : uploadLimit < r.size := hsz
    refine ⟨?_, ?_, fun _ => ?_, ?_⟩
    · simp [uploadHandler, hf', hlim]
    · intro body
      simp [uploadHandler, hf', hlim]
    · simp [uploadHandler, hf', hlim]
    · intro hfalse
      rw [hf'] at hfalse
      exact absurd hfalse (by simp)

/-- C10 witness: a concrete oversized RTF upload is answered with the 400
File too large error and is not stored. -/
theorem upload_size_limit_enforced_spot :
    (uploadHandler [] ⟨"application/rtf", "report.rtf", 10485761,
        "rtfFile-1.rtf"⟩).2 = [] ∧
    (uploadHandler [] ⟨"application/rtf", "report.rtf", 10485761,
        "rtfFile-1.rtf"⟩).1
      = Resp.json 400 [("error", JVal.jstr "File too large")] := by
  obtain ⟨h1, _, h3, _⟩ := upload_size_limit_enforced []
    ⟨"application/rtf", "report.rtf", 10485761, "rtfFile-1.rtf"⟩ (by decide)
  exact ⟨h1, h3 (by decide)⟩

end EchoCheck
